import Mathlib

/-!
Shallow embedding of the two scripts of this repository:
`scripts/benchmark-search-methods.py` (a benchmark harness comparing a
"traditional grep" search strategy against an "optimized indexed" one) and
`scripts/visualize-benchmark-results.py` (a plotting script reading the
saved results).

Modelling conventions:
* Python ints become `Nat` (token counts are lengths, hence nonnegative),
  Python floats become `Rat` (the constants involved, 0.03, 30.0, 10.0,
  are exactly representable; no rounding behaviour is at issue in the
  claims).
* The external ripgrep invocation is replaced by an explicit outcome value
  (`RgOutcome`): either the parsed stream of JSON events it printed, a
  timeout, or an exception.  Wall-clock times measured around the call are
  carried inside the success outcome.
* The filesystem is a partial map `String → Option String` from paths to
  file contents; a path that cannot be opened (missing or unreadable,
  both swallowed by the script) maps to `none`.
* The external tokenizer (tiktoken, an external collaborator of the
  scripts) is a parameter `tc : String → Nat`; `count_tokens` is a
  concrete model of it (character count) used for concrete evaluations.
* Python exceptions that the scripts let escape are modelled with
  `Except PyExc`; exceptions caught inside a function do not appear in
  its type, mirroring the source's `try/except` placement.
-/

/-- Python exceptions relevant to the scripts: `ZeroDivisionError` from
`/` with a zero denominator, `statistics.StatisticsError` from
`statistics.mean` on empty data, `ValueError` from `max` on an empty
sequence. -/
inductive PyExc where
  | zeroDivisionError
  | statisticsError
  | valueError
deriving DecidableEq, Repr

/-- Python `a / b` (true division): raises `ZeroDivisionError` when `b = 0`. -/
def pyDiv (a b : ℚ) : Except PyExc ℚ :=
  if b = 0 then .error .zeroDivisionError else .ok (a / b)

/-- Python `statistics.mean`: raises `StatisticsError` on empty data. -/
def pyMean (l : List ℚ) : Except PyExc ℚ :=
  if l.isEmpty then .error .statisticsError else .ok (l.sum / l.length)

/-- Python `max` on a list: raises `ValueError` on an empty sequence. -/
def pyMax (l : List ℚ) : Except PyExc ℚ :=
  match l with
  | [] => .error .valueError
  | x :: xs => .ok (xs.foldl max x)

/-- Python `sep.join(parts)`. -/
def pyJoin (sep : String) : List String → String
  | [] => ""
  | [s] => s
  | s :: t :: rest => s ++ sep ++ pyJoin sep (t :: rest)

/-- A search query from the static `TEST_QUERIES` catalog:
`{"pattern": ..., "description": ..., "type": ...}`. -/
structure Query where
  pattern : String
  description : String
  type : String
deriving DecidableEq, Repr

/-- The static query catalog `TEST_QUERIES` of
`benchmark-search-methods.py`. -/
def TEST_QUERIES : List Query := [
  ⟨"class \\w+Controller", "Find controller classes", "class"⟩,
  ⟨"class \\w+Service", "Find service classes", "class"⟩,
  ⟨"class \\w+Repository", "Find repository classes", "class"⟩,
  ⟨"def authenticate", "Find authentication functions", "function"⟩,
  ⟨"function render", "Find render functions", "function"⟩,
  ⟨"async function fetch", "Find async fetch functions", "function"⟩,
  ⟨"TODO|FIXME|HACK", "Find code comments", "comment"⟩,
  ⟨"import.*from", "Find imports", "import"⟩,
  ⟨"useState|useEffect", "Find React hooks", "hook"⟩,
  ⟨"try\\s*\x7b[^\x7d]+catch", "Find try-catch blocks", "error_handling"⟩,
  ⟨"api|endpoint|route", "Find API-related code", "api"⟩]

/-- `TOKEN_PRICE_PER_1K = 0.03` ($0.03 per 1K input tokens). -/
def TOKEN_PRICE_PER_1K : ℚ := 3 / 100

/-- A parsed ripgrep `--json` match event: the fields the scripts read
(`data.path.text`, `data.line_number`, `data.lines.text`). -/
structure RgMatch where
  path : String
  line_number : Nat
  text : String
deriving DecidableEq, Repr

/-- One line of ripgrep `--json` output as the scripts see it: either a
well-formed `"type": "match"` event, or anything else (context/summary
events, unparsable lines), which both loops skip. -/
inductive RgEvent where
  | matchEvent (m : RgMatch)
  | otherEvent
deriving DecidableEq, Repr

/-- The matches extracted from an event stream, in emission order. -/
def matchesOf (events : List RgEvent) : List RgMatch :=
  events.filterMap fun e =>
    match e with
    | .matchEvent m => some m
    | .otherEvent => none

/-- Outcome of one external `subprocess.run(["rg", ...])` call: the event
stream it printed together with the wall-clock time measured around it, a
`subprocess.TimeoutExpired`, or any other exception (carried as the
string Python would interpolate for it). -/
inductive RgOutcome where
  | success (events : List RgEvent) (elapsed : ℚ)
  | timeout
  | error (msg : String)
deriving DecidableEq, Repr

/-- Model of `count_tokens` (tiktoken for gpt-4, an external collaborator
not part of this repository): token count of a text, modelled as its
character count.  The strategy functions are parametrized over the
tokenizer; this concrete model is used for concrete evaluations. -/
def count_tokens (s : String) : Nat := s.length

/-- `calculate_cost`: `(tokens / 1000) * TOKEN_PRICE_PER_1K`. -/
def calculate_cost (tokens : Nat) : ℚ :=
  ((tokens : ℚ) / 1000) * TOKEN_PRICE_PER_1K

/-- The annotated blob appended per newly seen readable file in
`run_traditional_grep`: `f"File: {file_path}\n{content}\n"`. -/
def entryOf (path content : String) : String :=
  "File: " ++ path ++ "\n" ++ content ++ "\n"

/-- The deduplicated full-file blobs collected by `run_traditional_grep`:
for each match in order, if its path was not seen yet it is marked seen
and, when the file exists and is readable, the annotated content
`entryOf` is appended (a failing `open` is swallowed by the inner bare
`except: pass`). -/
def tradEntries (fs : String → Option String) :
    List RgMatch → List String → List String
  | [], _ => []
  | m :: ms, seen =>
    if m.path ∈ seen then
      tradEntries fs ms seen
    else
      match fs m.path with
      | some content =>
          entryOf m.path content :: tradEntries fs ms (m.path :: seen)
      | none => tradEntries fs ms (m.path :: seen)

/-- `run_traditional_grep`: simulates a grep search that sends full file
contents.  Returns `(sample, elapsed, tokens)`: on success the first 1000
characters of the `"\n"`-joined deduplicated file blobs, the measured
time and the token count of the full text; on `TimeoutExpired` (30s
limit) the sentinel `("Timeout", 30.0, 0)`; on any other exception
`(f"Error: {e}", 0.0, 0)`. -/
def run_traditional_grep (tc : String → Nat) (fs : String → Option String)
    (outcome : RgOutcome) : String × ℚ × Nat :=
  match outcome with
  | .success events elapsed =>
      let full_text := pyJoin "\n" (tradEntries fs (matchesOf events) [])
      let tokens := tc full_text
      (full_text.take 1000, elapsed, tokens)
  | .timeout => ("Timeout", 30, 0)
  | .error e => ("Error: " ++ e, 0, 0)

/-- Python `str.strip()`: removes leading and trailing whitespace. -/
def pyStrip (s : String) : String :=
  ⟨((s.data.dropWhile Char.isWhitespace).reverse.dropWhile
      Char.isWhitespace).reverse⟩

/-- The per-match record formatted by `run_optimized_search`:
`f"{symbol['type']} in {symbol['file']}:{symbol['line']}\n{symbol['text'].strip()}"`. -/
def fmtSymbol (query_type : String) (m : RgMatch) : String :=
  query_type ++ " in " ++ m.path ++ ":" ++ toString m.line_number ++ "\n"
    ++ pyStrip m.text

/-- `run_optimized_search`: simulates an indexed search.  Collects every
match event into a symbol record, keeps the first 50 (`symbols[:50]`),
formats each with `fmtSymbol` and joins them with `"\n\n"`.  Returns
`(sample, elapsed, tokens)` on success, `("Timeout", 10.0, 0)` on
`TimeoutExpired` (10s limit), `(f"Error: {e}", 0.0, 0)` otherwise. -/
def run_optimized_search (tc : String → Nat) (query_type : String)
    (outcome : RgOutcome) : String × ℚ × Nat :=
  match outcome with
  | .success events elapsed =>
      let symbols := matchesOf events
      let formatted_results := (symbols.take 50).map (fmtSymbol query_type)
      let result_text := pyJoin "\n\n" formatted_results
      let tokens := tc result_text
      (result_text.take 1000, elapsed, tokens)
  | .timeout => ("Timeout", 10, 0)
  | .error e => ("Error: " ++ e, 0, 0)

/-- One stored measurement dict: `{"tokens": ..., "time": ..., "cost": ...}`. -/
structure Measurement where
  tokens : Nat
  time : ℚ
  cost : ℚ
deriving DecidableEq, Repr

/-- The `self.results` structure: `{"traditional": [], "optimized": [],
"summary": {}}`.  The summary mapping is modelled as an association
list. -/
structure Results where
  traditional : List Measurement
  optimized : List Measurement
  summary : List (String × ℚ)
deriving DecidableEq, Repr

/-- The initial `self.results` value set in `SearchBenchmark.__init__`. -/
def initResults : Results := ⟨[], [], []⟩

/-- The per-query `token_reduction` computed in `run_benchmark`:
`((trad_tokens - opt_tokens) / trad_tokens * 100) if trad_tokens > 0 else 0`. -/
def token_reduction (trad_tokens opt_tokens : Nat) : ℚ :=
  if (trad_tokens : ℚ) > 0 then
    ((trad_tokens : ℚ) - (opt_tokens : ℚ)) / (trad_tokens : ℚ) * 100
  else 0

/-- The per-query `time_improvement` computed in `run_benchmark`:
`((trad_time - opt_time) / trad_time * 100) if trad_time > 0 else 0`. -/
def time_improvement (trad_time opt_time : ℚ) : ℚ :=
  if trad_time > 0 then (trad_time - opt_time) / trad_time * 100 else 0

/-- The per-query improvements dict built in `run_benchmark` (computed
and printed; not appended to `self.results`). -/
structure Improvements where
  token_red : ℚ
  time_imp : ℚ
  cost_savings : ℚ
deriving DecidableEq, Repr

/-- The per-query `result` dict assembled in the body of the
`run_benchmark` loop. -/
structure QueryResult where
  query : String
  pattern : String
  traditional : Measurement
  optimized : Measurement
  improvements : Improvements
deriving DecidableEq, Repr

/-- One iteration of the `run_benchmark` loop for a query, given the
outcomes of the two external calls: runs both strategies, derives costs
and improvements, and appends `result["traditional"]` and
`result["optimized"]` to the respective sequences of `self.results`. -/
def run_benchmark_step (tc : String → Nat) (fs : String → Option String)
    (q : Query) (outcomes : RgOutcome × RgOutcome) (r : Results) : Results :=
  let trad := run_traditional_grep tc fs outcomes.1
  let trad_cost := calculate_cost trad.2.2
  let opt := run_optimized_search tc q.type outcomes.2
  let opt_cost := calculate_cost opt.2.2
  let result : QueryResult :=
    { query := q.description
      pattern := q.pattern
      traditional := ⟨trad.2.2, trad.2.1, trad_cost⟩
      optimized := ⟨opt.2.2, opt.2.1, opt_cost⟩
      improvements :=
        ⟨token_reduction trad.2.2 opt.2.2,
         time_improvement trad.2.1 opt.2.1,
         trad_cost - opt_cost⟩ }
  { r with
      traditional := r.traditional ++ [result.traditional]
      optimized := r.optimized ++ [result.optimized] }

/-- `run_benchmark`: the loop over the query list, each query paired with
the outcomes of its two external calls. -/
def run_benchmark (tc : String → Nat) (fs : String → Option String)
    (qos : List (Query × RgOutcome × RgOutcome)) (r : Results) : Results :=
  qos.foldl (fun acc qo => run_benchmark_step tc fs qo.1 qo.2 acc) r

/-- Result of `generate_summary`: either the early return on an empty
batch (`"No results to summarize"`, nothing saved, `self.results`
untouched), or a completed summary carrying the printed overall
reductions and projected savings, the contents written by
`save_results` (a dump of `self.results`), and the in-memory
`self.results` after the call. -/
inductive SummaryResult where
  | emptyNotice (results : Results)
  | completed (token_red time_imp cost_red daily monthly yearly : ℚ)
      (savedFile : Results) (results : Results)
deriving DecidableEq, Repr

/-- `generate_summary`: early-returns when `self.results["traditional"]`
is empty; otherwise computes the six `statistics.mean` averages, the
three overall percentage reductions (unguarded `/`), the projected
savings, and calls `save_results`, which serializes `self.results`
unchanged. -/
def generate_summary (r : Results) : Except PyExc SummaryResult :=
  if r.traditional.isEmpty then .ok (.emptyNotice r)
  else do
    let avg_trad_tokens ← pyMean (r.traditional.map fun m => (m.tokens : ℚ))
    let avg_opt_tokens ← pyMean (r.optimized.map fun m => (m.tokens : ℚ))
    let avg_trad_time ← pyMean (r.traditional.map Measurement.time)
    let avg_opt_time ← pyMean (r.optimized.map Measurement.time)
    let avg_trad_cost ← pyMean (r.traditional.map Measurement.cost)
    let avg_opt_cost ← pyMean (r.optimized.map Measurement.cost)
    let tr0 ← pyDiv (avg_trad_tokens - avg_opt_tokens) avg_trad_tokens
    let ti0 ← pyDiv (avg_trad_time - avg_opt_time) avg_trad_time
    let cr0 ← pyDiv (avg_trad_cost - avg_opt_cost) avg_trad_cost
    let daily_savings := (avg_trad_cost - avg_opt_cost) * 1000
    .ok (.completed (tr0 * 100) (ti0 * 100) (cr0 * 100)
      daily_savings (daily_savings * 30) (daily_savings * 365) r r)

/-- The results file contents written during a `generate_summary` call,
when one was written. -/
def savedFileOf : Except PyExc SummaryResult → Option Results
  | .ok (.completed _ _ _ _ _ _ s _) => some s
  | _ => none

/-!
Embedding of the data computations of `visualize-benchmark-results.py`.
Each chart routine is modelled up to the point where it either raises or
reaches `plt.savefig`: the value returned on success carries the derived
statistic the routine draws plus the fixed output file name, and an
exception raised on the way (division by a zero length or average, `max`
of an empty sequence) aborts the routine before any image is written.
Matplotlib drawing calls themselves consume the already-computed lists
and do not raise on empty input.
-/

/-- `create_token_comparison_chart`: zips the two sequences, extracts the
token columns, draws the grouped bars, then computes
`avg_trad = sum/len`, `avg_opt = sum/len` and
`reduction = (avg_trad - avg_opt)/avg_trad * 100` before saving
`token_comparison.png`. -/
def create_token_comparison_chart (results : Results) :
    Except PyExc (ℚ × String) := do
  let pairs := results.traditional.zip results.optimized
  let trad_tokens := pairs.map fun p => ((p.1.tokens : ℚ))
  let opt_tokens := pairs.map fun p => ((p.2.tokens : ℚ))
  let avg_trad ← pyDiv trad_tokens.sum (trad_tokens.length : ℚ)
  let avg_opt ← pyDiv opt_tokens.sum (opt_tokens.length : ℚ)
  let red0 ← pyDiv (avg_trad - avg_opt) avg_trad
  .ok (red0 * 100, "token_comparison.png")

/-- `create_performance_chart`: computes the guarded per-query speed
improvements from the zipped sequences, draws the horizontal bars, then
evaluates `max(improvements)` for the x-limit and
`sum(improvements)/len(improvements)` for the average line before saving
`performance_improvement.png`. -/
def create_performance_chart (results : Results) :
    Except PyExc (ℚ × String) := do
  let pairs := results.traditional.zip results.optimized
  let improvements := pairs.map fun p =>
    if p.1.time > 0 then (p.1.time - p.2.time) / p.1.time * 100 else 0
  let _xmax ← pyMax improvements
  let avg_improvement ← pyDiv improvements.sum (improvements.length : ℚ)
  .ok (avg_improvement, "performance_improvement.png")

/-- `create_summary_infographic`: computes the six `sum/len` averages
over the full sequences and the three overall reductions (each an
unguarded `/`) before laying out the metric boxes and saving
`summary_infographic.png`. -/
def create_summary_infographic (results : Results) :
    Except PyExc (ℚ × ℚ × ℚ × String) := do
  let avg_trad_tokens ← pyDiv ((results.traditional.map fun m => (m.tokens : ℚ)).sum)
    (results.traditional.length : ℚ)
  let avg_opt_tokens ← pyDiv ((results.optimized.map fun m => (m.tokens : ℚ)).sum)
    (results.optimized.length : ℚ)
  let avg_trad_time ← pyDiv ((results.traditional.map Measurement.time).sum)
    (results.traditional.length : ℚ)
  let avg_opt_time ← pyDiv ((results.optimized.map Measurement.time).sum)
    (results.optimized.length : ℚ)
  let avg_trad_cost ← pyDiv ((results.traditional.map Measurement.cost).sum)
    (results.traditional.length : ℚ)
  let avg_opt_cost ← pyDiv ((results.optimized.map Measurement.cost).sum)
    (results.optimized.length : ℚ)
  let tr0 ← pyDiv (avg_trad_tokens - avg_opt_tokens) avg_trad_tokens
  let ti0 ← pyDiv (avg_trad_time - avg_opt_time) avg_trad_time
  let cr0 ← pyDiv (avg_trad_cost - avg_opt_cost) avg_trad_cost
  .ok (tr0 * 100, ti0 * 100, cr0 * 100, "summary_infographic.png")

/-! Helper lemmas about the benchmark loop. -/

theorem run_benchmark_nil (tc : String → Nat) (fs : String → Option String)
    (r : Results) : run_benchmark tc fs [] r = r := rfl

theorem run_benchmark_cons (tc : String → Nat) (fs : String → Option String)
    (q : Query) (oc : RgOutcome × RgOutcome)
    (qos : List (Query × RgOutcome × RgOutcome)) (r : Results) :
    run_benchmark tc fs ((q, oc) :: qos) r =
      run_benchmark tc fs qos (run_benchmark_step tc fs q oc r) := rfl

theorem run_benchmark_step_traditional (tc : String → Nat)
    (fs : String → Option String) (q : Query) (oc : RgOutcome × RgOutcome)
    (r : Results) :
    (run_benchmark_step tc fs q oc r).traditional.length =
      r.traditional.length + 1 := by
  simp [run_benchmark_step]

theorem run_benchmark_step_optimized (tc : String → Nat)
    (fs : String → Option String) (q : Query) (oc : RgOutcome × RgOutcome)
    (r : Results) :
    (run_benchmark_step tc fs q oc r).optimized.length =
      r.optimized.length + 1 := by
  simp [run_benchmark_step]

theorem run_benchmark_traditional_length (tc : String → Nat)
    (fs : String → Option String) :
    ∀ (qos : List (Query × RgOutcome × RgOutcome)) (r : Results),
      (run_benchmark tc fs qos r).traditional.length =
        r.traditional.length + qos.length
  | [], r => by simp [run_benchmark_nil]
  | (q, oc) :: qos, r => by
      rw [run_benchmark_cons,
        run_benchmark_traditional_length tc fs qos
          (run_benchmark_step tc fs q oc r),
        run_benchmark_step_traditional]
      simp only [List.length_cons]
      omega

theorem run_benchmark_optimized_length (tc : String → Nat)
    (fs : String → Option String) :
    ∀ (qos : List (Query × RgOutcome × RgOutcome)) (r : Results),
      (run_benchmark tc fs qos r).optimized.length =
        r.optimized.length + qos.length
  | [], r => by simp [run_benchmark_nil]
  | (q, oc) :: qos, r => by
      rw [run_benchmark_cons,
        run_benchmark_optimized_length tc fs qos
          (run_benchmark_step tc fs q oc r),
        run_benchmark_step_optimized]
      simp only [List.length_cons]
      omega

theorem run_benchmark_summary_eq (tc : String → Nat)
    (fs : String → Option String) :
    ∀ (qos : List (Query × RgOutcome × RgOutcome)) (r : Results),
      (run_benchmark tc fs qos r).summary = r.summary
  | [], r => rfl
  | (q, oc) :: qos, r => by
      rw [run_benchmark_cons,
        run_benchmark_summary_eq tc fs qos (run_benchmark_step tc fs q oc r)]
      rfl

theorem pyMean_of_ne_nil (l : List ℚ) (h : l ≠ []) :
    pyMean l = .ok (l.sum / l.length) := by
  simp [pyMean, h]

theorem exceptBind_ok {e : Type u} {a b : Type v} (x : a)
    (f : a → Except e b) : (Except.ok x : Except e a) >>= f = f x := rfl

theorem exceptBind_error {e : Type u} {a b : Type v} (err : e)
    (f : a → Except e b) :
    (Except.error err : Except e a) >>= f = Except.error err := rfl

/-- Whenever `generate_summary` wrote a results file, its contents are
exactly the in-memory `self.results` it was called on. -/
theorem savedFileOf_generate_summary (r : Results) (s : Results)
    (h : savedFileOf (generate_summary r) = some s) : s = r := by
  unfold generate_summary at h
  by_cases he : r.traditional.isEmpty
  · simp [he, exceptBind_ok, exceptBind_error, savedFileOf] at h
  · simp only [he, if_false, Bool.false_eq_true] at h
    cases h1 : pyMean (r.traditional.map fun m => (m.tokens : ℚ)) with
    | error e => simp [h1, exceptBind_ok, exceptBind_error, savedFileOf] at h
    | ok v1 =>
      cases h2 : pyMean (r.optimized.map fun m => (m.tokens : ℚ)) with
      | error e => simp [h1, h2, exceptBind_ok, exceptBind_error, savedFileOf] at h
      | ok v2 =>
        cases h3 : pyMean (r.traditional.map Measurement.time) with
        | error e => simp [h1, h2, h3, exceptBind_ok, exceptBind_error, savedFileOf] at h
        | ok v3 =>
          cases h4 : pyMean (r.optimized.map Measurement.time) with
          | error e => simp [h1, h2, h3, h4, exceptBind_ok, exceptBind_error, savedFileOf] at h
          | ok v4 =>
            cases h5 : pyMean (r.traditional.map Measurement.cost) with
            | error e => simp [h1, h2, h3, h4, h5, exceptBind_ok, exceptBind_error, savedFileOf] at h
            | ok v5 =>
              cases h6 : pyMean (r.optimized.map Measurement.cost) with
              | error e => simp [h1, h2, h3, h4, h5, h6, exceptBind_ok, exceptBind_error, savedFileOf] at h
              | ok v6 =>
                cases h7 : pyDiv (v1 - v2) v1 with
                | error e => simp [h1, h2, h3, h4, h5, h6, h7, exceptBind_ok, exceptBind_error, savedFileOf] at h
                | ok w1 =>
                  cases h8 : pyDiv (v3 - v4) v3 with
                  | error e =>
                      simp [h1, h2, h3, h4, h5, h6, h7, h8, exceptBind_ok, exceptBind_error, savedFileOf] at h
                  | ok w2 =>
                    cases h9 : pyDiv (v5 - v6) v5 with
                    | error e =>
                        simp [h1, h2, h3, h4, h5, h6, h7, h8, h9,
                          exceptBind_ok, exceptBind_error, savedFileOf] at h
                    | ok w3 =>
                      simp [h1, h2, h3, h4, h5, h6, h7, h8, h9,
                        exceptBind_ok, exceptBind_error, savedFileOf] at h
                      exact h.symm

/-- C6: for every token count `t ≥ 0` (all `Nat`s), `calculate_cost t`
is exactly `(t / 1000) * TOKEN_PRICE_PER_1K` with
`TOKEN_PRICE_PER_1K = 0.03`, i.e. the exact rational `3 t / 100000`;
`calculate_cost` is a pure function of its token argument alone. -/
theorem calculate_cost_formula (t : Nat) :
    calculate_cost t = ((t : ℚ) / 1000) * TOKEN_PRICE_PER_1K ∧
    TOKEN_PRICE_PER_1K = 3 / 100 ∧
    calculate_cost t = (3 * (t : ℚ)) / 100000 := by
  refine ⟨rfl, rfl, ?_⟩
  unfold calculate_cost TOKEN_PRICE_PER_1K
  ring

/-- C4: a `TimeoutExpired` on the external call makes
`run_traditional_grep` return `("Timeout", 30.0, 0)` and
`run_optimized_search` return `("Timeout", 10.0, 0)`; the loop body
stores the corresponding zero-token measurements (time equal to the
configured limit) and the benchmark continues through every remaining
query instead of aborting. -/
theorem timeout_yields_sentinel_and_continues (tc : String → Nat)
    (fs : String → Option String) (qt : String) (q : Query)
    (qos : List (Query × RgOutcome × RgOutcome)) (r : Results) :
    run_traditional_grep tc fs .timeout = ("Timeout", 30, 0) ∧
    run_optimized_search tc qt .timeout = ("Timeout", 10, 0) ∧
    run_benchmark_step tc fs q (.timeout, .timeout) r =
      { r with
          traditional := r.traditional ++ [⟨0, 30, 0⟩],
          optimized := r.optimized ++ [⟨0, 10, 0⟩] } ∧
    (run_benchmark tc fs ((q, .timeout, .timeout) :: qos) r).traditional.length
        = r.traditional.length + (1 + qos.length) ∧
    (run_benchmark tc fs ((q, .timeout, .timeout) :: qos) r).optimized.length
        = r.optimized.length + (1 + qos.length) := by
  refine ⟨rfl, rfl, ?_, ?_, ?_⟩
  · simp [run_benchmark_step, run_traditional_grep, run_optimized_search,
      calculate_cost]
  · rw [run_benchmark_traditional_length]
    simp only [List.length_cons]
    omega
  · rw [run_benchmark_optimized_length]
    simp only [List.length_cons]
    omega

/-- C5: any non-timeout exception `e` inside a query's measurement is
caught inside the strategy call (the strategy functions are total),
yielding the sample `f"Error: {e}"`, elapsed `0.0` and `0` tokens; the
stored measurements therefore have zero tokens, time and cost, and the
benchmark continues through every remaining query. -/
theorem exception_swallowed_per_query (tc : String → Nat)
    (fs : String → Option String) (qt e1 e2 : String) (q : Query)
    (qos : List (Query × RgOutcome × RgOutcome)) (r : Results) :
    run_traditional_grep tc fs (.error e1) = ("Error: " ++ e1, 0, 0) ∧
    run_optimized_search tc qt (.error e2) = ("Error: " ++ e2, 0, 0) ∧
    run_benchmark_step tc fs q (.error e1, .error e2) r =
      { r with
          traditional := r.traditional ++ [⟨0, 0, 0⟩],
          optimized := r.optimized ++ [⟨0, 0, 0⟩] } ∧
    (run_benchmark tc fs ((q, .error e1, .error e2) :: qos) r).traditional.length
        = r.traditional.length + (1 + qos.length) ∧
    (run_benchmark tc fs ((q, .error e1, .error e2) :: qos) r).optimized.length
        = r.optimized.length + (1 + qos.length) := by
  refine ⟨rfl, rfl, ?_, ?_, ?_⟩
  · simp [run_benchmark_step, run_traditional_grep, run_optimized_search,
      calculate_cost]
  · rw [run_benchmark_traditional_length]
    simp only [List.length_cons]
    omega
  · rw [run_benchmark_optimized_length]
    simp only [List.length_cons]
    omega

/-- C8: starting from the empty initial result store, after processing
any prefix of the query/outcome list the `traditional` and `optimized`
sequences have equal length, namely one entry per processed query. -/
theorem benchmark_sequences_parallel (tc : String → Nat)
    (fs : String → Option String)
    (qos : List (Query × RgOutcome × RgOutcome)) (k : Nat) :
    (run_benchmark tc fs (qos.take k) initResults).traditional.length =
      (run_benchmark tc fs (qos.take k) initResults).optimized.length ∧
    (run_benchmark tc fs (qos.take k) initResults).traditional.length =
      min k qos.length := by
  rw [run_benchmark_traditional_length, run_benchmark_optimized_length]
  simp [initResults, List.length_take]

/-- C9: when the `traditional` sequence is empty, `generate_summary`
takes the early `return` after printing the notice: no averages are
computed, no results file is written, and the in-memory result structure
is returned unchanged. -/
theorem generate_summary_empty_early_return (r : Results)
    (h : r.traditional = []) :
    generate_summary r = .ok (.emptyNotice r) ∧
    savedFileOf (generate_summary r) = none := by
  have he : r.traditional.isEmpty = true := by simp [h]
  constructor
  · unfold generate_summary
    rw [he]
    rfl
  · unfold generate_summary
    rw [he]
    rfl

theorem generate_summary_empty_early_return_witness :
    generate_summary initResults = .ok (.emptyNotice initResults) ∧
    savedFileOf (generate_summary initResults) = none :=
  generate_summary_empty_early_return initResults rfl

/-- C10: on a loaded result set whose `traditional` and `optimized`
sequences are both empty, each chart routine raises before reaching its
`savefig` call: the token-comparison chart and the infographic divide by
the zero length of the sequences (`ZeroDivisionError`), and the
performance chart takes `max` of the empty improvements list
(`ValueError`); none of them produces an image. -/
theorem chart_routines_fail_on_empty (r : Results)
    (h1 : r.traditional = []) (h2 : r.optimized = []) :
    create_token_comparison_chart r = .error .zeroDivisionError ∧
    create_performance_chart r = .error .valueError ∧
    create_summary_infographic r = .error .zeroDivisionError := by
  obtain ⟨t, o, s⟩ := r
  have ht : t = [] := h1
  have ho : o = [] := h2
  subst ht ho
  exact ⟨rfl, rfl, rfl⟩

theorem chart_routines_fail_on_empty_witness :
    create_token_comparison_chart initResults = .error .zeroDivisionError ∧
    create_performance_chart initResults = .error .valueError ∧
    create_summary_infographic initResults = .error .zeroDivisionError :=
  chart_routines_fail_on_empty initResults rfl rfl

theorem run_optimized_search_success (tc : String → Nat) (qt : String)
    (events : List RgEvent) (elapsed : ℚ) :
    run_optimized_search tc qt (.success events elapsed) =
      ((pyJoin "\n\n" (((matchesOf events).take 50).map (fmtSymbol qt))).take 1000,
        elapsed,
        tc (pyJoin "\n\n" (((matchesOf events).take 50).map (fmtSymbol qt)))) := rfl

/-- C7: on a successful external call, `run_optimized_search` returns the
`"\n\n"`-join of the `fmtSymbol` records (query type, file path, line
number, trimmed snippet) of exactly the first 50 matches in emission
order, together with its token count; two event streams whose match
lists agree on the first 50 entries produce the same result text and the
same token count, so matches beyond the 50th contribute nothing. -/
theorem optimized_first50_format (tc : String → Nat) (qt : String)
    (events : List RgEvent) (elapsed : ℚ) :
    run_optimized_search tc qt (.success events elapsed) =
      ((pyJoin "\n\n" (((matchesOf events).take 50).map (fmtSymbol qt))).take 1000,
        elapsed,
        tc (pyJoin "\n\n" (((matchesOf events).take 50).map (fmtSymbol qt)))) ∧
    ∀ (events2 : List RgEvent) (elapsed2 : ℚ),
      (matchesOf events2).take 50 = (matchesOf events).take 50 →
      (run_optimized_search tc qt (.success events2 elapsed2)).1 =
          (run_optimized_search tc qt (.success events elapsed)).1 ∧
      (run_optimized_search tc qt (.success events2 elapsed2)).2.2 =
          (run_optimized_search tc qt (.success events elapsed)).2.2 := by
  refine ⟨rfl, ?_⟩
  intro events2 elapsed2 hagree
  rw [run_optimized_search_success tc qt events2 elapsed2,
    run_optimized_search_success tc qt events elapsed, hagree]
  exact ⟨rfl, rfl⟩

theorem optimized_first50_format_witness :
    (run_optimized_search count_tokens "class"
        (.success [.matchEvent ⟨"a.py", 1, "x"⟩] 2) =
      ((pyJoin "\n\n" ((((matchesOf [.matchEvent ⟨"a.py", 1, "x"⟩])).take 50).map
          (fmtSymbol "class"))).take 1000,
        2,
        count_tokens (pyJoin "\n\n"
          ((((matchesOf [.matchEvent ⟨"a.py", 1, "x"⟩])).take 50).map
            (fmtSymbol "class"))))) ∧
    (run_optimized_search count_tokens "class"
        (.success [.matchEvent ⟨"a.py", 1, "x"⟩, .otherEvent] 7)).2.2 =
      (run_optimized_search count_tokens "class"
        (.success [.matchEvent ⟨"a.py", 1, "x"⟩] 2)).2.2 := by
  have h := optimized_first50_format count_tokens "class"
    [.matchEvent ⟨"a.py", 1, "x"⟩] 2
  exact ⟨h.1, (h.2 [.matchEvent ⟨"a.py", 1, "x"⟩, .otherEvent] 7 rfl).2⟩

/-- On a batch with non-empty sequences whose average traditional token
count is 0, the unguarded overall token reduction of `generate_summary`
raises `ZeroDivisionError`. -/
theorem generate_summary_token_divzero (r : Results)
    (h1 : r.traditional ≠ []) (h2 : r.optimized ≠ [])
    (hm : pyMean (r.traditional.map fun m => (m.tokens : ℚ)) = .ok 0) :
    generate_summary r = .error .zeroDivisionError := by
  have he : r.traditional.isEmpty = false := by
    cases hl : r.traditional with
    | nil => exact absurd hl h1
    | cons x xs => rfl
  have hmapon : ∀ (f : Measurement → ℚ), r.optimized.map f ≠ [] := by
    intro f hcon
    exact h2 (by simpa using hcon)
  have hmaptn : ∀ (f : Measurement → ℚ), r.traditional.map f ≠ [] := by
    intro f hcon
    exact h1 (by simpa using hcon)
  unfold generate_summary
  simp only [he, Bool.false_eq_true, if_false]
  rw [hm]
  simp only [exceptBind_ok]
  rw [pyMean_of_ne_nil (r.optimized.map fun m => ((m.tokens : ℚ))) (hmapon _)]
  simp only [exceptBind_ok]
  rw [pyMean_of_ne_nil (r.traditional.map Measurement.time) (hmaptn _)]
  simp only [exceptBind_ok]
  rw [pyMean_of_ne_nil (r.optimized.map Measurement.time) (hmapon _)]
  simp only [exceptBind_ok]
  rw [pyMean_of_ne_nil (r.traditional.map Measurement.cost) (hmaptn _)]
  simp only [exceptBind_ok]
  rw [pyMean_of_ne_nil (r.optimized.map Measurement.cost) (hmapon _)]
  simp only [exceptBind_ok]
  simp [pyDiv, exceptBind_error]

/-- On a batch with non-empty sequences whose traditional token, time
and cost sums are all nonzero, `generate_summary` completes and
`save_results` writes out exactly the in-memory result structure. -/
theorem generate_summary_completes (r : Results)
    (h1 : r.traditional ≠ []) (h2 : r.optimized ≠ [])
    (htok : (r.traditional.map fun m => (m.tokens : ℚ)).sum ≠ 0)
    (htime : (r.traditional.map Measurement.time).sum ≠ 0)
    (hcost : (r.traditional.map Measurement.cost).sum ≠ 0) :
    savedFileOf (generate_summary r) = some r := by
  have he : r.traditional.isEmpty = false := by
    cases hl : r.traditional with
    | nil => exact absurd hl h1
    | cons x xs => rfl
  have hmapon : ∀ (f : Measurement → ℚ), r.optimized.map f ≠ [] := by
    intro f hcon
    exact h2 (by simpa using hcon)
  have hmaptn : ∀ (f : Measurement → ℚ), r.traditional.map f ≠ [] := by
    intro f hcon
    exact h1 (by simpa using hcon)
  have hlen : ((r.traditional.length : ℚ)) ≠ 0 := by
    have : r.traditional.length ≠ 0 := by
      intro hc
      exact h1 (List.length_eq_zero.mp hc)
    exact_mod_cast this
  have havg : ∀ (f : Measurement → ℚ), (r.traditional.map f).sum ≠ 0 →
      (r.traditional.map f).sum / ((r.traditional.map f).length : ℚ) ≠ 0 := by
    intro f hsum
    have hl2 : (((r.traditional.map f).length : ℚ)) ≠ 0 := by
      rw [List.length_map]
      exact hlen
    exact div_ne_zero hsum hl2
  unfold generate_summary
  simp only [he, Bool.false_eq_true, if_false]
  rw [pyMean_of_ne_nil (r.traditional.map fun m => ((m.tokens : ℚ))) (hmaptn _)]
  simp only [exceptBind_ok]
  rw [pyMean_of_ne_nil (r.optimized.map fun m => ((m.tokens : ℚ))) (hmapon _)]
  simp only [exceptBind_ok]
  rw [pyMean_of_ne_nil (r.traditional.map Measurement.time) (hmaptn _)]
  simp only [exceptBind_ok]
  rw [pyMean_of_ne_nil (r.optimized.map Measurement.time) (hmapon _)]
  simp only [exceptBind_ok]
  rw [pyMean_of_ne_nil (r.traditional.map Measurement.cost) (hmaptn _)]
  simp only [exceptBind_ok]
  rw [pyMean_of_ne_nil (r.optimized.map Measurement.cost) (hmapon _)]
  simp only [exceptBind_ok]
  rw [pyDiv, if_neg (havg _ htok)]
  simp only [exceptBind_ok]
  rw [pyDiv, if_neg (havg _ htime)]
  simp only [exceptBind_ok]
  rw [pyDiv, if_neg (havg _ hcost)]
  simp only [exceptBind_ok]
  rfl

/-- C2 counterexample: a reachable batch (a single query whose two
external calls both time out) leaves every traditional token count at 0,
so `generate_summary`'s batch-level overall token reduction divides by a
zero average and raises `ZeroDivisionError` instead of yielding 0. -/
theorem overall_reduction_divzero_cx :
    generate_summary (run_benchmark count_tokens (fun _ => none)
      [(⟨"class \\w+Controller", "Find controller classes", "class"⟩,
        .timeout, .timeout)] initResults) = .error .zeroDivisionError := by
  have hrun : run_benchmark count_tokens (fun _ => none)
      [(⟨"class \\w+Controller", "Find controller classes", "class"⟩,
        .timeout, .timeout)] initResults =
      ⟨[⟨0, 30, calculate_cost 0⟩], [⟨0, 10, calculate_cost 0⟩], []⟩ := rfl
  rw [hrun]
  apply generate_summary_token_divzero
  · simp
  · simp
  · norm_num [pyMean]

/-- C2 (amended): the per-query token and time improvements are guarded
(0 when the before value is 0, else `(before - after)/before * 100`),
but the batch-level overall reductions in `generate_summary` are
unguarded: on a non-empty batch whose average traditional token count is
0 the function raises `ZeroDivisionError`. -/
theorem percentage_guards_amended :
    (∀ (b a : Nat), token_reduction b a =
        if b = 0 then 0 else (((b : ℚ) - (a : ℚ)) / (b : ℚ)) * 100) ∧
    (∀ (b a : ℚ), 0 ≤ b → time_improvement b a =
        if b = 0 then 0 else ((b - a) / b) * 100) ∧
    (∀ r : Results, r.traditional ≠ [] → r.optimized ≠ [] →
      pyMean (r.traditional.map fun m => (m.tokens : ℚ)) = .ok 0 →
      generate_summary r = .error .zeroDivisionError) := by
  refine ⟨?_, ?_, generate_summary_token_divzero⟩
  · intro b a
    unfold token_reduction
    by_cases hb : b = 0
    · subst hb
      simp
    · have hpos : (0 : ℚ) < (b : ℚ) := by exact_mod_cast Nat.pos_of_ne_zero hb
      rw [if_pos hpos, if_neg hb]
  · intro b a hb0
    unfold time_improvement
    by_cases hb : b = 0
    · subst hb
      simp
    · have hpos : (0 : ℚ) < b := lt_of_le_of_ne hb0 (Ne.symm hb)
      rw [if_pos hpos, if_neg hb]

theorem percentage_guards_amended_witness :
    token_reduction 0 7 = 0 ∧ time_improvement 0 5 = 0 ∧
    generate_summary ⟨[⟨0, 30, 0⟩], [⟨0, 10, 0⟩], []⟩ =
      .error .zeroDivisionError := by
  have h := percentage_guards_amended
  refine ⟨?_, ?_, ?_⟩
  · rw [h.1 0 7]
    norm_num
  · rw [h.2.1 0 5 le_rfl]
    norm_num
  · exact h.2.2 ⟨[⟨0, 30, 0⟩], [⟨0, 10, 0⟩], []⟩ (by simp) (by simp)
      (by norm_num [pyMean])

/-- A filesystem with a single readable file, used for concrete runs. -/
def demoFs : String → Option String :=
  fun p => if p = "a.py" then some "hello" else none

/-- A concrete quick-mode run: the five `TEST_QUERIES[:5]` queries, each
with a successful traditional call matching the one readable file and a
timed-out optimized call. -/
def quickOracle : List (Query × RgOutcome × RgOutcome) :=
  (TEST_QUERIES.take 5).map fun q =>
    (q, .success [.matchEvent ⟨"a.py", 1, "x"⟩] 1, .timeout)

/-- The result store produced by the concrete quick-mode run. -/
def quickRunResults : Results :=
  run_benchmark count_tokens demoFs quickOracle initResults

theorem quickRunResults_eq :
    quickRunResults =
      ⟨List.replicate 5 ⟨17, 1, calculate_cost 17⟩,
       List.replicate 5 ⟨0, 10, calculate_cost 0⟩, []⟩ := rfl

/-- C1 counterexample: a quick-mode run over a readable directory whose
summary generation succeeds serializes a result structure with exactly 5
entries in each sequence but an EMPTY summary mapping: `generate_summary`
only prints the statistics and `save_results` dumps `self.results`,
whose `summary` field is never populated. -/
theorem quick_summary_empty_cx :
    savedFileOf (generate_summary quickRunResults) = some quickRunResults ∧
    quickRunResults.traditional.length = 5 ∧
    quickRunResults.optimized.length = 5 ∧
    quickRunResults.summary = [] := by
  refine ⟨?_, ?_, ?_, ?_⟩
  · apply generate_summary_completes
    · rw [quickRunResults_eq]
      simp
    · rw [quickRunResults_eq]
      simp
    · rw [quickRunResults_eq]
      simp only [List.map_replicate, List.sum_replicate, nsmul_eq_mul]
      norm_num
    · rw [quickRunResults_eq]
      simp only [List.map_replicate, List.sum_replicate, nsmul_eq_mul]
      norm_num
    · rw [quickRunResults_eq]
      simp only [List.map_replicate, List.sum_replicate, nsmul_eq_mul]
      norm_num [calculate_cost, TOKEN_PRICE_PER_1K]
  · rw [quickRunResults_eq]
    rfl
  · rw [quickRunResults_eq]
    rfl
  · rw [quickRunResults_eq]

/-- C1 (amended): quick mode uses `TEST_QUERIES[:5]` (5 queries), and
every quick run appends exactly 5 entries to the `traditional` sequence
and 5 to the `optimized` sequence; whenever a results file is
serialized, its contents are that structure with the summary mapping
still empty (the summary statistics are printed, never stored). -/
theorem quick_run_shape_amended (tc : String → Nat)
    (fs : String → Option String) (ocs : List (RgOutcome × RgOutcome))
    (h : ocs.length = 5) :
    (TEST_QUERIES.take 5).length = 5 ∧
    (run_benchmark tc fs ((TEST_QUERIES.take 5).zip ocs)
        initResults).traditional.length = 5 ∧
    (run_benchmark tc fs ((TEST_QUERIES.take 5).zip ocs)
        initResults).optimized.length = 5 ∧
    (run_benchmark tc fs ((TEST_QUERIES.take 5).zip ocs)
        initResults).summary = [] ∧
    ∀ s, savedFileOf (generate_summary (run_benchmark tc fs
        ((TEST_QUERIES.take 5).zip ocs) initResults)) = some s →
      s.traditional.length = 5 ∧ s.optimized.length = 5 ∧ s.summary = [] := by
  have hq : (TEST_QUERIES.take 5).length = 5 := rfl
  have hz : ((TEST_QUERIES.take 5).zip ocs).length = 5 := by
    rw [List.length_zip, hq, h]
    omega
  have ht : (run_benchmark tc fs ((TEST_QUERIES.take 5).zip ocs)
      initResults).traditional.length = 5 := by
    rw [run_benchmark_traditional_length, hz]
    rfl
  have ho : (run_benchmark tc fs ((TEST_QUERIES.take 5).zip ocs)
      initResults).optimized.length = 5 := by
    rw [run_benchmark_optimized_length, hz]
    rfl
  have hs : (run_benchmark tc fs ((TEST_QUERIES.take 5).zip ocs)
      initResults).summary = [] := by
    rw [run_benchmark_summary_eq]
    rfl
  refine ⟨hq, ht, ho, hs, ?_⟩
  intro s hsave
  have hsr := savedFileOf_generate_summary _ _ hsave
  subst hsr
  exact ⟨ht, ho, hs⟩

theorem quick_run_shape_amended_witness :
    (TEST_QUERIES.take 5).length = 5 ∧
    (run_benchmark count_tokens demoFs
        ((TEST_QUERIES.take 5).zip (List.replicate 5 (.timeout, .timeout)))
        initResults).traditional.length = 5 ∧
    (run_benchmark count_tokens demoFs
        ((TEST_QUERIES.take 5).zip (List.replicate 5 (.timeout, .timeout)))
        initResults).optimized.length = 5 ∧
    (run_benchmark count_tokens demoFs
        ((TEST_QUERIES.take 5).zip (List.replicate 5 (.timeout, .timeout)))
        initResults).summary = [] ∧
    ∀ s, savedFileOf (generate_summary (run_benchmark count_tokens demoFs
        ((TEST_QUERIES.take 5).zip (List.replicate 5 (.timeout, .timeout)))
        initResults)) = some s →
      s.traditional.length = 5 ∧ s.optimized.length = 5 ∧ s.summary = [] :=
  quick_run_shape_amended count_tokens demoFs
    (List.replicate 5 (.timeout, .timeout)) rfl

/-- C3 counterexample: with a single match whose file is absent from the
filesystem (the exhaustive strategy's `full_path.exists()` check fails,
so nothing is read), the exhaustive strategy counts 0 tokens while the
indexed strategy still formats the match record from the search output
itself and counts a positive number of tokens, so the claimed
`traditional ≥ optimized` inequality fails. -/
theorem token_inequality_cx :
    ¬ ((run_optimized_search count_tokens "class"
          (.success [.matchEvent ⟨"app.py", 1, "x"⟩] 1)).2.2 ≤
        (run_traditional_grep count_tokens (fun _ => none)
          (.success [.matchEvent ⟨"app.py", 1, "x"⟩] 1)).2.2) := by
  decide

theorem entryOf_length (p c : String) :
    (entryOf p c).length = p.length + c.length + 8 := by
  have h1 : "File: ".length = 6 := rfl
  have h2 : "\n".length = 1 := rfl
  simp only [entryOf, String.length_append, h1, h2]
  omega

theorem pyJoin_length (sep : String) :
    ∀ l : List String,
      (pyJoin sep l).length =
        (l.map String.length).sum + sep.length * (l.length - 1)
  | [] => by simp [pyJoin]
  | [s] => by simp [pyJoin]
  | s :: t :: rest => by
      have ih := pyJoin_length sep (t :: rest)
      show (s ++ sep ++ pyJoin sep (t :: rest)).length = _
      rw [String.length_append, String.length_append, ih]
      simp only [List.map_cons, List.sum_cons, List.length_cons,
        Nat.add_sub_cancel]
      ring

theorem tradEntries_of_nodup (fs : String → Option String) :
    ∀ (ms : List RgMatch) (seen : List String),
      (∀ m ∈ ms, m.path ∉ seen) → ((ms.map RgMatch.path).Nodup) →
      tradEntries fs ms seen =
        ms.filterMap fun m => (fs m.path).map (entryOf m.path)
  | [], _, _, _ => rfl
  | m :: ms, seen, hseen, hnd => by
      have hm : m.path ∉ seen := hseen m (by simp)
      have hnd2 : (∀ x ∈ ms, ¬x.path = m.path) ∧
          (ms.map RgMatch.path).Nodup := by simpa using hnd
      have hseen2 : ∀ m2 ∈ ms, m2.path ∉ m.path :: seen := by
        intro m2 hm2
        simp only [List.mem_cons, not_or]
        exact ⟨hnd2.1 m2 hm2, hseen m2 (List.mem_cons_of_mem _ hm2)⟩
      have ih := tradEntries_of_nodup fs ms (m.path :: seen) hseen2 hnd2.2
      show tradEntries fs (m :: ms) seen = _
      simp only [tradEntries, hm, if_false]
      cases hfs : fs m.path with
      | some c => simp [hfs, List.filterMap_cons, ih]
      | none => simp [hfs, List.filterMap_cons, ih]

theorem entries_bound (fs : String → Option String) (qt : String) :
    ∀ (l : List RgMatch),
      (∀ m ∈ l, ∃ c, fs m.path = some c ∧
        (fmtSymbol qt m).length ≤ c.length) →
      (l.filterMap fun m => (fs m.path).map (entryOf m.path)).length =
          l.length ∧
      (l.map fun m => (fmtSymbol qt m).length).sum + 8 * l.length ≤
        ((l.filterMap fun m => (fs m.path).map (entryOf m.path)).map
          String.length).sum
  | [], _ => by simp
  | m :: l, hex => by
      obtain ⟨c, hc, hlen⟩ := hex m (by simp)
      have ih := entries_bound fs qt l
        (fun m2 hm2 => hex m2 (List.mem_cons_of_mem _ hm2))
      have he := entryOf_length m.path c
      simp only [List.filterMap_cons, hc, Option.map_some', List.length_cons,
        List.map_cons, List.sum_cons]
      constructor
      · rw [ih.1]
      · have h2 := ih.2
        omega

theorem run_traditional_grep_success (tc : String → Nat)
    (fs : String → Option String) (events : List RgEvent) (elapsed : ℚ) :
    run_traditional_grep tc fs (.success events elapsed) =
      ((pyJoin "\n" (tradEntries fs (matchesOf events) [])).take 1000,
        elapsed, tc (pyJoin "\n" (tradEntries fs (matchesOf events) []))) := rfl

/-- C3 (amended): with token counting modelled as text length, the
exhaustive strategy's token count dominates the indexed strategy's for a
fixed set of external-search outputs PROVIDED the matches lie in
pairwise-distinct files and each of the first 50 matches' files exists
with content at least as long as that match's formatted record; without
such conditions the inequality fails (see the counterexample: a matched
file absent from disk gives the exhaustive strategy 0 tokens while the
indexed strategy counts a positive record). -/
theorem token_inequality_amended (fs : String → Option String) (qt : String)
    (events : List RgEvent) (e1 e2 : ℚ)
    (hnd : ((matchesOf events).map RgMatch.path).Nodup)
    (hex : ∀ m ∈ (matchesOf events).take 50, ∃ c, fs m.path = some c ∧
        (fmtSymbol qt m).length ≤ c.length) :
    (run_optimized_search count_tokens qt (.success events e2)).2.2 ≤
      (run_traditional_grep count_tokens fs (.success events e1)).2.2 := by
  rw [run_optimized_search_success, run_traditional_grep_success]
  show count_tokens
      (pyJoin "\n\n" (((matchesOf events).take 50).map (fmtSymbol qt))) ≤
    count_tokens (pyJoin "\n" (tradEntries fs (matchesOf events) []))
  unfold count_tokens
  rw [pyJoin_length, pyJoin_length,
    tradEntries_of_nodup fs (matchesOf events) [] (by simp) hnd]
  obtain ⟨hlen50, hsum50⟩ :=
    entries_bound fs qt ((matchesOf events).take 50) hex
  have hsplit : (matchesOf events).filterMap
      (fun m => (fs m.path).map (entryOf m.path)) =
    ((matchesOf events).take 50).filterMap
      (fun m => (fs m.path).map (entryOf m.path)) ++
    ((matchesOf events).drop 50).filterMap
      (fun m => (fs m.path).map (entryOf m.path)) := by
    conv_lhs => rw [← List.take_append_drop 50 (matchesOf events)]
    rw [List.filterMap_append]
  rw [hsplit]
  simp only [List.map_append, List.sum_append, List.length_append,
    List.length_map]
  have hmm : (((matchesOf events).take 50).map (fmtSymbol qt)).map
      String.length =
      ((matchesOf events).take 50).map fun m => (fmtSymbol qt m).length := by
    rw [List.map_map]
    rfl
  rw [hmm]
  have hsep2 : ("\n\n" : String).length = 2 := rfl
  have hsep1 : ("\n" : String).length = 1 := rfl
  rw [hsep1, hsep2]
  omega

theorem token_inequality_amended_witness :
    (run_optimized_search count_tokens "c"
        (.success [.matchEvent ⟨"a.py", 1, "x"⟩] 1)).2.2 ≤
      (run_traditional_grep count_tokens
        (fun p => if p = "a.py" then
          some "0123456789012345678901234567890" else none)
        (.success [.matchEvent ⟨"a.py", 1, "x"⟩] 1)).2.2 := by
  apply token_inequality_amended
  · decide
  · intro m hm
    have hm2 : m = ⟨"a.py", 1, "x"⟩ := by
      simpa [matchesOf] using hm
    subst hm2
    exact ⟨"0123456789012345678901234567890", rfl, by decide⟩
